import Mathlib

/-!
# Powerlytics anomaly-detection engine: a shallow embedding

This file embeds `src/anomaly_detector.py` (class `AnomalyDetector`) in Lean 4
and proves/refutes the frozen claims about it.

Modelling conventions:
* Python floats are modelled as exact reals (`ℝ`); `numpy` statistics are the
  textbook functions they implement (`np.mean` is the arithmetic mean,
  `np.std` the population standard deviation, `np.median` the sorted-middle
  median averaging the two middle elements for even length, `np.polyfit(x,y,1)`
  the unique least-squares line, written in its closed normal-equation form).
* A Python `datetime` is modelled by the only attribute the code reads
  (`.hour`) plus an inert tag so that distinct datetimes with equal hours can
  be told apart.
* A data point (a Python dict) is modelled by the two keys the code reads:
  each is `Option`-valued, `none` meaning the key is absent.
* Exceptions are modelled by `Option`: a helper that can raise (out-of-range
  list indexing `timestamps[i]`, `power_values[i]`) returns `none` on the
  raising path, and the `try/except` in `detect_anomalies_in_data` maps `none`
  to the empty list, exactly as the handler returns `[]`.
* The `async` wrappers, logging and the thread pool do not affect the values
  computed and are not modelled; `explanation` strings (f-string formatting of
  floats) are likewise omitted from `AnomalyResult` — no claim mentions them.
-/

namespace Powerlytics

/-- The `.hour` attribute of a Python `datetime`, plus an inert tag `stamp`
standing for the rest of the datetime (so unequal datetimes stay unequal). -/
structure Timestamp where
  hour : ℕ
  stamp : ℕ := 0
  deriving DecidableEq, Repr, Inhabited

/-- A raw data point (`dict`); only the two keys read by the code are kept.
`none` models the key being absent from the dict. -/
structure DataPoint where
  power_w : Option ℝ
  timestamp : Option Timestamp

/-- Embeds `np.mean` of a list: arithmetic mean (sum divided by length). -/
noncomputable def npMean (l : List ℝ) : ℝ := l.sum / l.length

/-- Population variance, the square of `np.std`: mean of squared deviations. -/
noncomputable def npVar (l : List ℝ) : ℝ :=
  (l.map (fun x => (x - npMean l) ^ 2)).sum / l.length

/-- Embeds `np.std` of a list: population standard deviation. -/
noncomputable def npStd (l : List ℝ) : ℝ := Real.sqrt (npVar l)

/-- The slice `l[a:b]` of Python/numpy (for `0 ≤ a ≤ b`): elements at
indices `a, …, b-1`. -/
def slice (l : List ℝ) (a b : ℕ) : List ℝ := (l.drop a).take (b - a)

/-- Embeds `AnomalyResult` (the dataclass), minus the `explanation` string. -/
structure AnomalyResult where
  device_id : String
  timestamp : Timestamp
  power_w : ℝ
  anomaly_score : ℝ
  severity : String
  type : String
  confidence : ℝ

/-- The state of an `AnomalyDetector` instance: the `anomaly_thresholds`
dict set in `__init__` (the thread pool holds no data and is not modelled). -/
structure AnomalyDetector where
  low : ℝ
  medium : ℝ
  high : ℝ

/-- Embeds `AnomalyDetector.__init__`: thresholds `{low: 2.0, medium: 3.0, high: 4.0}`. -/
noncomputable def AnomalyDetector.init : AnomalyDetector :=
  { low := 2.0, medium := 3.0, high := 4.0 }

/-- The severity `if/elif` chain of `_detect_statistical_anomalies`
(lines 126-134): `none` models the final `continue` (not an anomaly). -/
noncomputable def statSeverity (d : AnomalyDetector) (z : ℝ) : Option String :=
  if z ≥ d.high then some "high"
  else if z ≥ d.medium then some "medium"
  else if z ≥ d.low then some "low"
  else none

/-- One iteration of the loop of `_detect_statistical_anomalies` at index `i`.
Outer `Option`: `none` models an uncaught exception (`timestamps[i]` out of
range); inner `Option`: `none` models `continue` (index skipped). -/
noncomputable def statStep (d : AnomalyDetector) (device_id : String)
    (power : List ℝ) (timestamps : List Timestamp) (w i : ℕ) :
    Option (Option AnomalyResult) :=
  let window := slice power (i - w) i
  let mean := npMean window
  let std := npStd window
  if std = 0 then some none
  else
    let z := |power.getD i 0 - mean| / std
    match statSeverity d z with
    | none => some none
    | some sev =>
      match timestamps.get? i with
      | none => none
      | some t =>
        some (some { device_id := device_id, timestamp := t,
                     power_w := power.getD i 0, anomaly_score := z,
                     severity := sev, type := "statistical",
                     confidence := min 0.95 (z / 5) })

/-- Runs the per-index body over a list of indices, appending the produced
anomalies in order; a `none` from the body (an exception) aborts the whole
run, as an uncaught Python exception would. -/
def runSteps {α : Type} (f : ℕ → Option (Option α)) : List ℕ → Option (List α)
  | [] => some []
  | i :: rest =>
    match f i with
    | none => none
    | some r =>
      match runSteps f rest with
      | none => none
      | some tail =>
        match r with
        | some a => some (a :: tail)
        | none => some tail

/-- Embeds `_detect_statistical_anomalies` (lines 98-150): rolling z-score detector,
window `min(24, n // 2)`, loop `for i in range(window_size, len(power))`. -/
noncomputable def detect_statistical_anomalies (d : AnomalyDetector)
    (device_id : String) (power : List ℝ) (timestamps : List Timestamp) :
    Option (List AnomalyResult) :=
  let w := min 24 (power.length / 2)
  runSteps (statStep d device_id power timestamps w)
    (List.range' w (power.length - w))

/-- The mean of the positions `0, …, m-1` (the `x̄` of `np.polyfit` with
`x = np.arange(m)`). -/
noncomputable def posMean (m : ℕ) : ℝ := (((List.range m).map (fun i => (i : ℝ))).sum) / m

/-- The slope of `np.polyfit(np.arange(len l), l, 1)`, in the closed
normal-equation form `Σ(xᵢ-x̄)(yᵢ-ȳ) / Σ(xᵢ-x̄)²` that the unique
least-squares line satisfies. -/
noncomputable def fitSlope (l : List ℝ) : ℝ :=
  let xbar := posMean l.length
  let ybar := npMean l
  (l.enum.map (fun p => ((p.1 : ℝ) - xbar) * (p.2 - ybar))).sum /
    (l.enum.map (fun p => ((p.1 : ℝ) - xbar) ^ 2)).sum

/-- The intercept of `np.polyfit(np.arange(len l), l, 1)`:
`ȳ - slope * x̄`. -/
noncomputable def fitIntercept (l : List ℝ) : ℝ :=
  npMean l - fitSlope l * posMean l.length

/-- The sum of squared errors of the line `y = a·x + b` over a window at
positions `0, …, len-1` — what `np.polyfit(x, y, 1)` minimizes. -/
noncomputable def sse (l : List ℝ) (a b : ℝ) : ℝ :=
  (l.enum.map (fun p => (p.2 - (a * p.1 + b)) ^ 2)).sum

/-- One iteration of the loop of `_detect_trend_anomalies` at index `i`
(window fixed at 6). Outer/inner `Option` as in `statStep`. -/
noncomputable def trendStep (d : AnomalyDetector) (device_id : String)
    (power : List ℝ) (timestamps : List Timestamp) (i : ℕ) :
    Option (Option AnomalyResult) :=
  let window := slice power (i - 6) i
  let trend_slope := fitSlope window
  if |trend_slope| > npStd window * 0.5 then
    let predicted := trend_slope * window.length + fitIntercept window
    let actual := power.getD i 0
    let deviation := |actual - predicted|
    if deviation > npStd window * 1.5 then
      match timestamps.get? i with
      | none => none
      | some t =>
        some (some { device_id := device_id, timestamp := t,
                     power_w := actual,
                     anomaly_score := deviation / npStd window,
                     severity := "medium", type := "trend",
                     confidence := 0.8 })
    else some none
  else some none

/-- Embeds `_detect_trend_anomalies` (lines 152-196): needs ≥ 12 points, fixed
window 6, loop `for i in range(6, len(power))`. -/
noncomputable def detect_trend_anomalies (d : AnomalyDetector)
    (device_id : String) (power : List ℝ) (timestamps : List Timestamp) :
    Option (List AnomalyResult) :=
  if power.length < 12 then some []
  else
    runSteps (trendStep d device_id power timestamps)
      (List.range' 6 (power.length - 6))

/-- The loop `for i, timestamp in enumerate(timestamps): …
power_values[i]` of `_detect_seasonal_anomalies` (lines 213-217), from
position `k` on: pairs each timestamp with the power value at its index,
raising (`none`) when the index is out of range for the power array. -/
def pairUpFrom (power : List ℝ) : List Timestamp → ℕ → Option (List (Timestamp × ℝ))
  | [], _ => some []
  | t :: rest, k =>
    match power.get? k with
    | none => none
    | some v =>
      match pairUpFrom power rest (k + 1) with
      | none => none
      | some tail => some ((t, v) :: tail)

/-- The `(timestamp, power_values[i])` pairing built by the grouping loop of
`_detect_seasonal_anomalies` (lines 213-217), keyed by the timestamp instead
of the raw index (only the timestamp's hour and the power value are ever
read from the groups). -/
def pairUp (power : List ℝ) (timestamps : List Timestamp) :
    Option (List (Timestamp × ℝ)) :=
  pairUpFrom power timestamps 0

/-- The hourly baseline of `_detect_seasonal_anomalies` (lines 219-227) for
hour `h`: `(mean, std)` of the powers whose timestamp has `hour = h`, present
only when that group has at least 3 samples.  (The source builds the whole
`hourly_baselines` dict up front; looking a single hour up is the same
computation, and no dict-iteration order reaches the output.) -/
noncomputable def hourlyBaseline (pairs : List (Timestamp × ℝ)) (h : ℕ) :
    Option (ℝ × ℝ) :=
  let vals := (pairs.filter (fun p => p.1.hour = h)).map (fun p => p.2)
  if vals.length ≥ 3 then some (npMean vals, npStd vals) else none

/-- The per-point body of the flagging loop of `_detect_seasonal_anomalies`
(lines 230-251), for the pair `(timestamp, power)`: `none` means the point is
not flagged. -/
noncomputable def seasonalStep (d : AnomalyDetector) (device_id : String)
    (pairs : List (Timestamp × ℝ)) (p : Timestamp × ℝ) :
    Option AnomalyResult :=
  match hourlyBaseline pairs p.1.hour with
  | none => none
  | some baseline =>
    if baseline.2 > 0 then
      let z := |p.2 - baseline.1| / baseline.2
      if z ≥ d.medium then
        some { device_id := device_id, timestamp := p.1, power_w := p.2,
               anomaly_score := z,
               severity := if z ≥ d.high then "high" else "medium",
               type := "seasonal", confidence := min 0.9 (z / 4) }
      else none
    else none

/-- Embeds `_detect_seasonal_anomalies` (lines 198-253): needs ≥ 48 points, groups
by `timestamp.hour`, flags against per-hour baselines; the flagging loop runs
over `zip(timestamps, power_values)` in index order. -/
noncomputable def detect_seasonal_anomalies (d : AnomalyDetector)
    (device_id : String) (power : List ℝ) (timestamps : List Timestamp) :
    Option (List AnomalyResult) :=
  if power.length < 48 then some []
  else
    match pairUp power timestamps with
    | none => none
    | some pairs =>
      some ((timestamps.zip power).filterMap (seasonalStep d device_id pairs))

/-- The extraction `[dp['power_w'] for dp in data_points if 'power_w' in dp]`
(line 62): the power values of exactly the points that have the key. -/
def extract_power_values (data_points : List DataPoint) : List ℝ :=
  data_points.filterMap (fun dp => dp.power_w)

/-- The extraction `[dp['timestamp'] for dp in data_points if 'timestamp' in dp]`
(line 63): the timestamps of exactly the points that have the key. -/
def extract_timestamps (data_points : List DataPoint) : List Timestamp :=
  data_points.filterMap (fun dp => dp.timestamp)

/-- Embeds `detect_anomalies_in_data` (lines 50-96): guard on raw length, extract,
guard on extracted power count, run the three detectors and concatenate
statistical ++ trend ++ seasonal; the surrounding `try/except` turns any
exception (`none`) into `[]`. -/
noncomputable def detect_anomalies_in_data (d : AnomalyDetector)
    (device_id : String) (data_points : List DataPoint) :
    List AnomalyResult :=
  if data_points.length < 10 then []
  else
    let power_values := extract_power_values data_points
    let timestamps := extract_timestamps data_points
    if power_values.length < 10 then []
    else
      match detect_statistical_anomalies d device_id power_values timestamps,
            detect_trend_anomalies d device_id power_values timestamps,
            detect_seasonal_anomalies d device_id power_values timestamps with
      | some a, some b, some c => a ++ b ++ c
      | _, _, _ => []

/-- Embeds `np.median` of a list: middle of the ascending sort for odd length, the
average of the two middle elements for even length.  (The source only calls
it on lists of length ≥ 5, so the empty-list default is unreachable.) -/
noncomputable def npMedian (l : List ℝ) : ℝ :=
  let s := l.insertionSort (fun a b => a ≤ b)
  if l.length % 2 = 1 then s.getD (l.length / 2) 0
  else (s.getD (l.length / 2 - 1) 0 + s.getD (l.length / 2) 0) / 2

/-- Embeds `calculate_anomaly_score` (lines 255-283).  (`not historical_power or
len(historical_power) < 5` collapses to `length < 5`, since an empty list has
length 0.) -/
noncomputable def calculate_anomaly_score (current_power : ℝ)
    (historical_power : List ℝ) (method : String) : ℝ :=
  if historical_power.length < 5 then 0
  else
    let mean := npMean historical_power
    let std := npStd historical_power
    if std = 0 then 0
    else if method = "zscore" then |current_power - mean| / std
    else if method = "modified_zscore" then
      let median := npMedian historical_power
      let mad := npMedian (historical_power.map (fun x => |x - median|))
      if mad = 0 then 0
      else 0.6745 * |current_power - median| / mad
    else 0

/-- A stateful run of `detect_anomalies_in_data` on an `AnomalyDetector`
instance: the method reads `self.anomaly_thresholds` and never assigns to
`self`, so the state it returns is the state it was given. -/
noncomputable def detectRun (d : AnomalyDetector) (device_id : String)
    (data_points : List DataPoint) :
    List AnomalyResult × AnomalyDetector :=
  (detect_anomalies_in_data d device_id data_points, d)

/-- Follows the spec's wording for §4.2 (StatisticalDetector), one index:
mean and population std over `power[i-w : i]`; skip when `std == 0`;
`z = |power[i] - mean| / std`; `z < low` means not an anomaly; otherwise the
highest matching tier wins (tiers are inclusive lower bounds 2.0/3.0/4.0);
confidence `min(0.95, z / 5.0)`. -/
noncomputable def specStatPoint (device_id : String) (power : List ℝ)
    (timestamps : List Timestamp) (w i : ℕ) : Option AnomalyResult :=
  let window := slice power (i - w) i
  let mean := npMean window
  let std := npStd window
  if std = 0 then none
  else
    let z := |power.getD i 0 - mean| / std
    if z < 2 then none
    else
      some { device_id := device_id, timestamp := timestamps.getD i default,
             power_w := power.getD i 0, anomaly_score := z,
             severity := if z ≥ 4 then "high" else if z ≥ 3 then "medium" else "low",
             type := "statistical", confidence := min 0.95 (z / 5) }

/-- Follows the spec's wording for §4.3 (TrendDetector), one index: fit the
least-squares line to `power[i-6 : i]` over positions `0..5`; skip unless
`|slope| > 0.5 * std(window)`; predict the value at position `w = 6` with the
fitted line; flag only when `deviation = |actual - predicted| >
1.5 * std(window)`; severity `medium`, confidence `0.8`, score
`deviation / std(window)`. -/
noncomputable def specTrendPoint (device_id : String) (power : List ℝ)
    (timestamps : List Timestamp) (i : ℕ) : Option AnomalyResult :=
  let window := slice power (i - 6) i
  let std := npStd window
  let slope := fitSlope window
  if |slope| > 0.5 * std then
    let predicted := slope * 6 + fitIntercept window
    let deviation := |power.getD i 0 - predicted|
    if deviation > 1.5 * std then
      some { device_id := device_id, timestamp := timestamps.getD i default,
             power_w := power.getD i 0, anomaly_score := deviation / std,
             severity := "medium", type := "trend", confidence := 0.8 }
    else none
  else none

/-- Follows the spec's wording for §4.4 (SeasonalDetector), one point:
group by `timestamp.hour`; an hour with fewer than 3 samples has no baseline
and is never flagged; a zero-std baseline never flags; otherwise
`z = |power - baseline.mean| / baseline.std`, flag only when `z ≥ 3.0` (the
medium threshold — no `low`-severity seasonal anomalies), severity `high`
when `z ≥ 4.0` else `medium`, confidence `min(0.9, z / 4)`. -/
noncomputable def specSeasonalPoint (device_id : String)
    (pairs : List (Timestamp × ℝ)) (p : Timestamp × ℝ) :
    Option AnomalyResult :=
  let group := (pairs.filter (fun q => q.1.hour = p.1.hour)).map (fun q => q.2)
  if group.length < 3 then none
  else
    let mean := npMean group
    let std := npStd group
    if std = 0 then none
    else
      let z := |p.2 - mean| / std
      if z < 3 then none
      else
        some { device_id := device_id, timestamp := p.1, power_w := p.2,
               anomaly_score := z,
               severity := if z ≥ 4 then "high" else "medium",
               type := "seasonal", confidence := min 0.9 (z / 4) }

/-- The spec's "valid points": the points having both fields present. -/
def validPoints (data_points : List DataPoint) : List DataPoint :=
  data_points.filter (fun dp => dp.power_w.isSome && dp.timestamp.isSome)

/-- Follows the spec's wording for §4.1 (SeriesPreprocessor), as claimed:
both extracted sequences contain exactly the points having both fields (so
the `i`-th power value and the `i`-th timestamp come from the same point),
and fewer than 10 valid points always yields an empty result. -/
def claimedPreprocessing (data_points : List DataPoint) : Prop :=
  extract_power_values data_points =
    (validPoints data_points).filterMap (fun dp => dp.power_w) ∧
  extract_timestamps data_points =
    (validPoints data_points).filterMap (fun dp => dp.timestamp) ∧
  ((validPoints data_points).length < 10 →
    ∀ (d : AnomalyDetector) (device_id : String),
      detect_anomalies_in_data d device_id data_points = [])

/-- The order of the severity tiers: `low < medium < high`. -/
def severityRank (s : String) : ℕ :=
  if s = "high" then 2 else if s = "medium" then 1 else 0

/-- The median absolute deviation the `modified_zscore` branch computes. -/
noncomputable def madOf (l : List ℝ) : ℝ :=
  npMedian (l.map (fun x => |x - npMedian l|))

/-! ## Theorems -/

/-- When every step returns normally, `runSteps` collects exactly the
per-index results, in index order. -/
theorem runSteps_eq_filterMap {α : Type} (f : ℕ → Option (Option α))
    (g : ℕ → Option α) :
    ∀ idxs : List ℕ, (∀ i ∈ idxs, f i = some (g i)) →
      runSteps f idxs = some (idxs.filterMap g) := by
  intro idxs
  induction idxs with
  | nil => intro _; rfl
  | cons i rest ih =>
    intro h
    have hi : f i = some (g i) := h i (by simp)
    have hr : runSteps f rest = some (rest.filterMap g) :=
      ih (fun j hj => h j (by simp [hj]))
    simp only [runSteps, hi, hr, List.filterMap_cons]
    cases g i <;> simp

/-- The numeric thresholds of the constructed instance. -/
theorem init_thresholds :
    AnomalyDetector.init.low = 2 ∧ AnomalyDetector.init.medium = 3 ∧
      AnomalyDetector.init.high = 4 := by
  refine ⟨?_, ?_, ?_⟩ <;> norm_num [AnomalyDetector.init]

/-- The severity chain of the source, at the constructed thresholds, equals
the spec's "highest matching tier wins, `z < low` is no anomaly" rule. -/
theorem statSeverity_init (z : ℝ) :
    statSeverity AnomalyDetector.init z =
      if z < 2 then none
      else some (if z ≥ 4 then "high" else if z ≥ 3 then "medium" else "low") := by
  have h4 : AnomalyDetector.init.high = 4 := by norm_num [AnomalyDetector.init]
  have h3 : AnomalyDetector.init.medium = 3 := by norm_num [AnomalyDetector.init]
  have h2 : AnomalyDetector.init.low = 2 := by norm_num [AnomalyDetector.init]
  unfold statSeverity
  rw [h4, h3, h2]
  split_ifs <;> first | rfl | linarith

/-- A `get?` at an in-range index is the `getD` there. -/
theorem get?_eq_some_getD {α : Type} [Inhabited α] (l : List α) (i : ℕ)
    (h : i < l.length) : l.get? i = some (l.getD i default) := by
  rw [List.getD_eq_getElem l default h, List.get?_eq_getElem?,
    List.getElem?_eq_getElem h]

/-- One statistical step of the source equals the spec's description of that
index, whenever the timestamp list covers the index. -/
theorem statStep_eq_spec (device : String) (power : List ℝ)
    (ts : List Timestamp) (w i : ℕ) (hi : i < ts.length) :
    statStep AnomalyDetector.init device power ts w i =
      some (specStatPoint device power ts w i) := by
  have hget : ts.get? i = some (ts.getD i default) := get?_eq_some_getD ts i hi
  simp only [statStep, specStatPoint, statSeverity_init, hget]
  by_cases h0 : npStd (slice power (i - w) i) = 0
  · simp [h0]
  · simp only [if_neg h0]
    split_ifs <;> first | rfl | simp

/-- C2: for every series of `n ≥ 10` power values (with aligned timestamps),
the statistical detector uses window `w = min(24, n/2)` and returns, without
raising, exactly the anomalies described by the spec: for each `i` from `w`
to `n-1`, mean/population-std over `power[i-w : i]`, skip when `std = 0`,
`z = |power[i] - mean| / std`, no anomaly when `z < 2.0`, otherwise one
`statistical` result whose severity is the highest matching tier among
2.0/3.0/4.0, whose score is `z` and whose confidence is `min(0.95, z/5)`. -/
theorem statistical_detector_meets_spec (device : String) (power : List ℝ)
    (ts : List Timestamp) (hn : 10 ≤ power.length)
    (hts : ts.length = power.length) :
    detect_statistical_anomalies AnomalyDetector.init device power ts =
      some ((List.range' (min 24 (power.length / 2))
               (power.length - min 24 (power.length / 2))).filterMap
             (specStatPoint device power ts (min 24 (power.length / 2)))) := by
  unfold detect_statistical_anomalies
  apply runSteps_eq_filterMap
  intro i hi
  have hmem := List.mem_range'_1.mp hi
  have hlt : i < ts.length := by omega
  exact statStep_eq_spec device power ts _ i hlt

/-- Witness for C2 at a concrete ten-point series. -/
theorem statistical_detector_meets_spec_witness :
    detect_statistical_anomalies AnomalyDetector.init "dev"
        (List.replicate 10 (100 : ℝ)) (List.replicate 10 default) =
      some ((List.range' (min 24 ((List.replicate 10 (100 : ℝ)).length / 2))
               ((List.replicate 10 (100 : ℝ)).length -
                 min 24 ((List.replicate 10 (100 : ℝ)).length / 2))).filterMap
             (specStatPoint "dev" (List.replicate 10 (100 : ℝ))
               (List.replicate 10 default)
               (min 24 ((List.replicate 10 (100 : ℝ)).length / 2)))) :=
  statistical_detector_meets_spec "dev" (List.replicate 10 (100 : ℝ))
    (List.replicate 10 default) (by simp) (by simp)

/-- On a six-point window (the trend detector's window), the closed-form
`fitSlope`/`fitIntercept` pair really is the least-squares line: its sum of
squared errors is minimal among all lines, which justifies embedding
`np.polyfit(x, window_data, 1)` by that closed form. -/
theorem fitLine_least_squares (y0 y1 y2 y3 y4 y5 a b : ℝ) :
    sse [y0, y1, y2, y3, y4, y5] (fitSlope [y0, y1, y2, y3, y4, y5])
        (fitIntercept [y0, y1, y2, y3, y4, y5]) ≤
      sse [y0, y1, y2, y3, y4, y5] a b := by
  have hx : posMean 6 = 5 / 2 := by
    rw [posMean]
    norm_num [List.range_succ, List.range_zero]
  have hs : fitSlope [y0, y1, y2, y3, y4, y5] =
      (-2.5 * y0 - 1.5 * y1 - 0.5 * y2 + 0.5 * y3 + 1.5 * y4 + 2.5 * y5) / 17.5 := by
    simp only [fitSlope, List.enum, List.enumFrom, List.length_cons,
      List.length_nil, npMean, List.map_cons, List.map_nil, List.sum_cons,
      List.sum_nil]
    norm_num [hx]
    ring_nf
  have hi : fitIntercept [y0, y1, y2, y3, y4, y5] =
      (y0 + y1 + y2 + y3 + y4 + y5) / 6 -
        (-2.5 * y0 - 1.5 * y1 - 0.5 * y2 + 0.5 * y3 + 1.5 * y4 + 2.5 * y5) / 17.5 * (5 / 2) := by
    simp only [fitIntercept, List.length_cons, List.length_nil, npMean,
      List.sum_cons, List.sum_nil, hs]
    norm_num [hx]
    ring_nf
  have key : sse [y0, y1, y2, y3, y4, y5] a b -
      sse [y0, y1, y2, y3, y4, y5] (fitSlope [y0, y1, y2, y3, y4, y5])
        (fitIntercept [y0, y1, y2, y3, y4, y5]) =
      17.5 * (a - fitSlope [y0, y1, y2, y3, y4, y5]) ^ 2 +
        6 * (((y0 + y1 + y2 + y3 + y4 + y5) / 6 - a * (5 / 2)) - b) ^ 2 := by
    rw [hs, hi]
    simp only [sse, List.enum, List.enumFrom, List.map_cons, List.map_nil,
      List.sum_cons, List.sum_nil]
    push_cast
    ring_nf
  have hpos : 0 ≤ 17.5 * (a - fitSlope [y0, y1, y2, y3, y4, y5]) ^ 2 +
      6 * (((y0 + y1 + y2 + y3 + y4 + y5) / 6 - a * (5 / 2)) - b) ^ 2 := by
    positivity
  linarith

/-- Inside the trend loop the window always has exactly 6 elements. -/
theorem trend_window_length (power : List ℝ) (i : ℕ) (h6 : 6 ≤ i)
    (hn : i < power.length) : (slice power (i - 6) i).length = 6 := by
  simp only [slice, List.length_take, List.length_drop]
  omega

/-- One trend step of the source equals the spec's description of that index,
for every index the loop visits. -/
theorem trendStep_eq_spec (device : String) (power : List ℝ)
    (ts : List Timestamp) (i : ℕ) (hi : i < ts.length) (h6 : 6 ≤ i)
    (hn : i < power.length) :
    trendStep AnomalyDetector.init device power ts i =
      some (specTrendPoint device power ts i) := by
  have hget : ts.get? i = some (ts.getD i default) := get?_eq_some_getD ts i hi
  have hlen : (slice power (i - 6) i).length = 6 := trend_window_length power i h6 hn
  simp only [trendStep, specTrendPoint, hget, hlen]
  norm_num
  split_ifs <;> first | rfl | linarith | simp

/-- C3: the trend detector emits nothing for a series of fewer than 12
points; for `n ≥ 12` it uses the fixed window 6 and returns, without raising,
exactly the anomalies described by the spec at each index `i` from 6 to
`n-1`: fit the least-squares line over the 6 preceding points, skip unless
`|slope| > 0.5 * std`, predict position 6 with the line, flag only when
`|actual - predicted| > 1.5 * std`, severity always `medium`, confidence
always `0.8`, score `deviation / std`. -/
theorem trend_detector_meets_spec (device : String) (power : List ℝ)
    (ts : List Timestamp) (hts : ts.length = power.length) :
    (power.length < 12 →
      detect_trend_anomalies AnomalyDetector.init device power ts = some []) ∧
    (12 ≤ power.length →
      detect_trend_anomalies AnomalyDetector.init device power ts =
        some ((List.range' 6 (power.length - 6)).filterMap
               (specTrendPoint device power ts))) := by
  constructor
  · intro h12
    simp [detect_trend_anomalies, h12]
  · intro h12
    unfold detect_trend_anomalies
    rw [if_neg (by omega)]
    apply runSteps_eq_filterMap
    intro i hi
    have hmem := List.mem_range'_1.mp hi
    exact trendStep_eq_spec device power ts i (by omega) (by omega) (by omega)

/-- Witness for C3 at a concrete twelve-point series. -/
theorem trend_detector_meets_spec_witness :
    ((List.replicate 12 (100 : ℝ)).length < 12 →
      detect_trend_anomalies AnomalyDetector.init "dev"
          (List.replicate 12 (100 : ℝ)) (List.replicate 12 default) = some []) ∧
    (12 ≤ (List.replicate 12 (100 : ℝ)).length →
      detect_trend_anomalies AnomalyDetector.init "dev"
          (List.replicate 12 (100 : ℝ)) (List.replicate 12 default) =
        some ((List.range' 6 ((List.replicate 12 (100 : ℝ)).length - 6)).filterMap
               (specTrendPoint "dev" (List.replicate 12 (100 : ℝ))
                 (List.replicate 12 default)))) :=
  trend_detector_meets_spec "dev" (List.replicate 12 (100 : ℝ))
    (List.replicate 12 default) (by simp)

/-- The grouping loop succeeds and produces the timestamp/power pairs in
index order whenever the power array covers every timestamp index. -/
theorem pairUpFrom_eq_zip (power : List ℝ) :
    ∀ (ts : List Timestamp) (k : ℕ), k + ts.length ≤ power.length →
      pairUpFrom power ts k = some (ts.zip (power.drop k)) := by
  intro ts
  induction ts with
  | nil => intro k _; simp [pairUpFrom]
  | cons t rest ih =>
    intro k h
    simp only [List.length_cons] at h
    have hk : k < power.length := by omega
    have hg : power[k]? = some power[k] := List.getElem?_eq_getElem hk
    have hr := ih (k + 1) (by omega)
    simp only [pairUpFrom, List.get?_eq_getElem?, hg, hr]
    rw [List.drop_eq_getElem_cons hk, List.zip_cons_cons]

/-- On an aligned series `pairUp` is the elementwise zip. -/
theorem pairUp_eq_zip (power : List ℝ) (ts : List Timestamp)
    (h : ts.length ≤ power.length) : pairUp power ts = some (ts.zip power) := by
  have := pairUpFrom_eq_zip power ts 0 (by omega)
  simpa [pairUp] using this

/-- One seasonal flagging step of the source equals the spec's description
of that point. -/
theorem seasonalStep_eq_spec (device : String)
    (pairs : List (Timestamp × ℝ)) (p : Timestamp × ℝ) :
    seasonalStep AnomalyDetector.init device pairs p =
      specSeasonalPoint device pairs p := by
  have hm : AnomalyDetector.init.medium = 3 := by norm_num [AnomalyDetector.init]
  have hh : AnomalyDetector.init.high = 4 := by norm_num [AnomalyDetector.init]
  simp only [seasonalStep, specSeasonalPoint, hourlyBaseline, hm, hh]
  by_cases h3 :
      3 ≤ ((pairs.filter (fun q => q.1.hour = p.1.hour)).map (fun q => q.2)).length
  · rw [if_pos h3, if_neg (not_lt.mpr h3)]
    dsimp only
    by_cases hs :
        npStd ((pairs.filter (fun q => q.1.hour = p.1.hour)).map (fun q => q.2)) = 0
    · simp [hs]
    · have hpos :
          0 < npStd ((pairs.filter (fun q => q.1.hour = p.1.hour)).map (fun q => q.2)) :=
        lt_of_le_of_ne (Real.sqrt_nonneg _) (Ne.symm hs)
      rw [if_pos hpos, if_neg hs]
      split_ifs <;> first | rfl | linarith
  · rw [if_neg h3, if_pos (not_le.mp h3)]

/-- C4: the seasonal detector emits nothing for a series of fewer than 48
points; for `n ≥ 48` (with aligned timestamps) it returns, without raising,
exactly the anomalies the spec describes per point: per-hour baselines only
for hours with at least 3 samples, never flagging sparse hours or zero-std
baselines, flagging `z = |power - mean| / std ≥ 3.0` (so no `low` severity),
severity `high` iff `z ≥ 4.0`, confidence `min(0.9, z / 4)`. -/
theorem seasonal_detector_meets_spec (device : String) (power : List ℝ)
    (ts : List Timestamp) (hts : ts.length = power.length) :
    (power.length < 48 →
      detect_seasonal_anomalies AnomalyDetector.init device power ts = some []) ∧
    (48 ≤ power.length →
      detect_seasonal_anomalies AnomalyDetector.init device power ts =
        some ((ts.zip power).filterMap
               (specSeasonalPoint device (ts.zip power)))) := by
  constructor
  · intro h
    simp [detect_seasonal_anomalies, h]
  · intro h
    unfold detect_seasonal_anomalies
    rw [if_neg (by omega), pairUp_eq_zip power ts (le_of_eq hts)]
    have hfun : seasonalStep AnomalyDetector.init device (ts.zip power) =
        specSeasonalPoint device (ts.zip power) :=
      funext (seasonalStep_eq_spec device (ts.zip power))
    dsimp only
    rw [hfun]

/-- Witness for C4 at a concrete 48-point series. -/
theorem seasonal_detector_meets_spec_witness :
    ((List.replicate 48 (100 : ℝ)).length < 48 →
      detect_seasonal_anomalies AnomalyDetector.init "dev"
          (List.replicate 48 (100 : ℝ)) (List.replicate 48 default) = some []) ∧
    (48 ≤ (List.replicate 48 (100 : ℝ)).length →
      detect_seasonal_anomalies AnomalyDetector.init "dev"
          (List.replicate 48 (100 : ℝ)) (List.replicate 48 default) =
        some (((List.replicate 48 default).zip (List.replicate 48 (100 : ℝ))).filterMap
               (specSeasonalPoint "dev"
                 ((List.replicate 48 default).zip (List.replicate 48 (100 : ℝ)))))) :=
  seasonal_detector_meets_spec "dev" (List.replicate 48 (100 : ℝ))
    (List.replicate 48 default) (by simp)

/-- The sum of a constant list. -/
theorem sum_of_const (l : List ℝ) (c : ℝ) (h : ∀ x ∈ l, x = c) :
    l.sum = l.length * c := by
  induction l with
  | nil => simp
  | cons a rest ih =>
    have ha : a = c := h a (by simp)
    have hr := ih (fun x hx => h x (by simp [hx]))
    simp [ha, hr]
    ring

/-- The mean of a nonempty constant list is the constant. -/
theorem npMean_of_const (l : List ℝ) (c : ℝ) (h : ∀ x ∈ l, x = c)
    (hne : l ≠ []) : npMean l = c := by
  have hlen : (l.length : ℝ) ≠ 0 := by
    have h0 : l.length ≠ 0 := fun h0 => hne (List.length_eq_zero.mp h0)
    exact_mod_cast h0
  rw [npMean, sum_of_const l c h, mul_div_assoc, mul_comm]
  field_simp

/-- A constant list has zero variance. -/
theorem npVar_of_const (l : List ℝ) (c : ℝ) (h : ∀ x ∈ l, x = c) :
    npVar l = 0 := by
  rcases eq_or_ne l [] with rfl | hne
  · simp [npVar]
  · have hm := npMean_of_const l c h hne
    have hz : (l.map (fun x => (x - npMean l) ^ 2)).sum = 0 := by
      have hall : ∀ y ∈ l.map (fun x => (x - npMean l) ^ 2), y = 0 := by
        intro y hy
        obtain ⟨x, hx, rfl⟩ := List.mem_map.mp hy
        rw [h x hx, hm]
        ring
      rw [sum_of_const _ 0 hall, mul_zero]
    rw [npVar, hz, zero_div]

/-- A constant list has zero standard deviation (the degenerate-window
guard's situation). -/
theorem npStd_of_const (l : List ℝ) (c : ℝ) (h : ∀ x ∈ l, x = c) :
    npStd l = 0 := by
  rw [npStd, npVar_of_const l c h, Real.sqrt_zero]

/-- A slice is made of elements of the list. -/
theorem slice_subset (l : List ℝ) (a b : ℕ) : slice l a b ⊆ l :=
  (List.take_subset _ _).trans (List.drop_subset _ _)

/-- On a constant-power series every statistical step hits the `std == 0`
guard and is skipped. -/
theorem statStep_const (d : AnomalyDetector) (device_id : String)
    (power : List ℝ) (ts : List Timestamp) (c : ℝ) (w i : ℕ)
    (h : ∀ x ∈ power, x = c) : statStep d device_id power ts w i = some none := by
  have h0 : npStd (slice power (i - w) i) = 0 :=
    npStd_of_const _ c (fun x hx => h x (slice_subset power _ _ hx))
  simp [statStep, h0]

/-- When every step is skipped, the loop yields the empty list. -/
theorem runSteps_all_skip {α : Type} (f : ℕ → Option (Option α)) :
    ∀ idxs : List ℕ, (∀ i ∈ idxs, f i = some none) → runSteps f idxs = some [] := by
  intro idxs
  induction idxs with
  | nil => intro _; rfl
  | cons i rest ih =>
    intro h
    have hr := ih (fun j hj => h j (by simp [hj]))
    simp [runSteps, h i (by simp), hr]

/-- The statistical detector emits nothing on a constant-power series. -/
theorem const_statistical (d : AnomalyDetector) (device_id : String)
    (power : List ℝ) (ts : List Timestamp) (c : ℝ) (h : ∀ x ∈ power, x = c) :
    detect_statistical_anomalies d device_id power ts = some [] := by
  unfold detect_statistical_anomalies
  exact runSteps_all_skip _ _ (fun i _ => statStep_const d device_id power ts c _ i h)

/-- The seasonal detector emits nothing on a constant-power series: every
hourly baseline that exists has zero std and never flags. -/
theorem const_seasonal (d : AnomalyDetector) (device_id : String)
    (power : List ℝ) (ts : List Timestamp) (c : ℝ) (h : ∀ x ∈ power, x = c)
    (hts : ts.length ≤ power.length) :
    detect_seasonal_anomalies d device_id power ts = some [] := by
  unfold detect_seasonal_anomalies
  by_cases h48 : power.length < 48
  · rw [if_pos h48]
  · rw [if_neg h48, pairUp_eq_zip power ts hts]
    dsimp only
    have hnil : (ts.zip power).filterMap (seasonalStep d device_id (ts.zip power)) = [] := by
      rw [List.filterMap_eq_nil]
      intro p hp
      have hstd : npStd (((ts.zip power).filter
          (fun q => q.1.hour = p.1.hour)).map (fun q => q.2)) = 0 := by
        apply npStd_of_const _ c
        intro x hx
        obtain ⟨q, hq, rfl⟩ := List.mem_map.mp hx
        exact h q.2 (List.of_mem_zip (List.mem_filter.mp hq).1).2
      by_cases h3 : 3 ≤ ((ts.zip power).filter
          (fun q => q.1.hour = p.1.hour)).length
      · simp [seasonalStep, hourlyBaseline, h3, hstd]
      · simp [seasonalStep, hourlyBaseline, h3]
    rw [hnil]

/-- C6: on a constant-power series (every power value equal, so every window
and every hourly group has zero variance), the statistical and the seasonal
detector each emit zero anomalies, whatever the length: the zero-std guards
silently skip every degenerate window instead of dividing by it. -/
theorem constant_series_no_anomalies (d : AnomalyDetector) (device_id : String)
    (power : List ℝ) (ts : List Timestamp) (c : ℝ)
    (hconst : ∀ x ∈ power, x = c) (hts : ts.length = power.length) :
    detect_statistical_anomalies d device_id power ts = some [] ∧
    detect_seasonal_anomalies d device_id power ts = some [] :=
  ⟨const_statistical d device_id power ts c hconst,
   const_seasonal d device_id power ts c hconst (le_of_eq hts)⟩

/-- Witness for C6 at a concrete 48-point constant series. -/
theorem constant_series_no_anomalies_witness :
    detect_statistical_anomalies AnomalyDetector.init "dev"
        (List.replicate 48 (250 : ℝ)) (List.replicate 48 default) = some [] ∧
    detect_seasonal_anomalies AnomalyDetector.init "dev"
        (List.replicate 48 (250 : ℝ)) (List.replicate 48 default) = some [] :=
  constant_series_no_anomalies AnomalyDetector.init "dev"
    (List.replicate 48 (250 : ℝ)) (List.replicate 48 default) 250
    (fun x hx => List.eq_of_mem_replicate hx) (by simp)

/-- Counterexample to C1 as stated: a point that has `power_w` but no
`timestamp` still contributes its power value, although it is not a
both-field point — the two extractions filter independently. -/
theorem preprocessing_claim_false :
    ¬ claimedPreprocessing [{ power_w := some 5, timestamp := none }] := by
  intro h
  simpa [claimedPreprocessing, extract_power_values, validPoints] using h.1

/-- Over a list on which `f` never fails, `filterMap f` is index-aligned
with the list. -/
theorem filterMap_getElem?_all_some {α β : Type} (f : α → Option β) :
    ∀ l : List α, (∀ a ∈ l, (f a).isSome = true) →
      ∀ i : ℕ, (l.filterMap f)[i]? = l[i]?.bind f := by
  intro l
  induction l with
  | nil => intro _ i; simp
  | cons a rest ih =>
    intro h i
    obtain ⟨v, hv⟩ := Option.isSome_iff_exists.mp (h a (by simp))
    cases i with
    | zero => simp [List.filterMap_cons, hv]
    | succ j =>
      have hr := ih (fun b hb => h b (by simp [hb])) j
      simp [List.filterMap_cons, hv, hr]

/-- Filtering first on the key that `filterMap` keeps changes nothing. -/
theorem filterMap_filter_isSome {α β : Type} (f : α → Option β) :
    ∀ l : List α,
      (l.filter (fun a => (f a).isSome)).filterMap f = l.filterMap f := by
  intro l
  induction l with
  | nil => rfl
  | cons a rest ih =>
    cases hfa : f a <;>
      simp [List.filter_cons, List.filterMap_cons, hfa, ih]

/-- C1 amended: the preprocessing filters the two fields independently — the
power sequence holds the `power_w` values of exactly the points having
`power_w`, the timestamp sequence the `timestamp` values of exactly the
points having `timestamp`; the two are index-aligned with the input (and so
with each other) when every point has both fields; and whenever fewer than
10 points carry `power_w` the call returns an empty result list without
raising. -/
theorem preprocessing_amended (data_points : List DataPoint) :
    (extract_power_values data_points =
        (data_points.filter (fun dp => dp.power_w.isSome)).filterMap
          (fun dp => dp.power_w) ∧
      extract_timestamps data_points =
        (data_points.filter (fun dp => dp.timestamp.isSome)).filterMap
          (fun dp => dp.timestamp)) ∧
    ((∀ dp ∈ data_points, dp.power_w.isSome = true ∧ dp.timestamp.isSome = true) →
      ∀ i : ℕ,
        (extract_power_values data_points)[i]? =
          data_points[i]?.bind (fun dp => dp.power_w) ∧
        (extract_timestamps data_points)[i]? =
          data_points[i]?.bind (fun dp => dp.timestamp)) ∧
    ((extract_power_values data_points).length < 10 →
      ∀ (d : AnomalyDetector) (device_id : String),
        detect_anomalies_in_data d device_id data_points = []) := by
  refine ⟨⟨?_, ?_⟩, ?_, ?_⟩
  · exact (filterMap_filter_isSome _ data_points).symm
  · exact (filterMap_filter_isSome _ data_points).symm
  · intro hall i
    exact ⟨filterMap_getElem?_all_some _ data_points
             (fun a ha => (hall a ha).1) i,
           filterMap_getElem?_all_some _ data_points
             (fun a ha => (hall a ha).2) i⟩
  · intro hlen d device_id
    by_cases h10 : data_points.length < 10
    · simp [detect_anomalies_in_data, h10]
    · simp [detect_anomalies_in_data, h10, hlen]

/-- The power extraction of a series of identical full points. -/
theorem extract_power_replicate (n : ℕ) (v : ℝ) (t : Timestamp) :
    extract_power_values
        (List.replicate n { power_w := some v, timestamp := some t }) =
      List.replicate n v := by
  induction n with
  | zero => rfl
  | succ m ih =>
    simp only [List.replicate_succ, extract_power_values,
      List.filterMap_cons] at ih ⊢
    simp [ih]

/-- The timestamp extraction of a series of identical full points. -/
theorem extract_timestamps_replicate (n : ℕ) (v : ℝ) (t : Timestamp) :
    extract_timestamps
        (List.replicate n { power_w := some v, timestamp := some t }) =
      List.replicate n t := by
  induction n with
  | zero => rfl
  | succ m ih =>
    simp only [List.replicate_succ, extract_timestamps,
      List.filterMap_cons] at ih ⊢
    simp [ih]

/-- C5: for an input that passes both guards and on which no detector
raises, the returned list is exactly the statistical results, then the trend
results, then the seasonal results — each sublist in its own internal order,
concatenated with no merging, re-ranking or deduplication, so the total
count is the sum of the three counts. -/
theorem results_concatenated_in_order (d : AnomalyDetector)
    (device_id : String) (data_points : List DataPoint)
    (a b c : List AnomalyResult)
    (h10 : 10 ≤ data_points.length)
    (hp : 10 ≤ (extract_power_values data_points).length)
    (ha : detect_statistical_anomalies d device_id
            (extract_power_values data_points)
            (extract_timestamps data_points) = some a)
    (hb : detect_trend_anomalies d device_id
            (extract_power_values data_points)
            (extract_timestamps data_points) = some b)
    (hc : detect_seasonal_anomalies d device_id
            (extract_power_values data_points)
            (extract_timestamps data_points) = some c) :
    detect_anomalies_in_data d device_id data_points = a ++ b ++ c ∧
    (detect_anomalies_in_data d device_id data_points).length =
      a.length + b.length + c.length := by
  have hmain : detect_anomalies_in_data d device_id data_points = a ++ b ++ c := by
    simp [detect_anomalies_in_data, not_lt.mpr h10, not_lt.mpr hp, ha, hb, hc]
  exact ⟨hmain, by rw [hmain]; simp [Nat.add_assoc]⟩

/-- Witness for C5 at a concrete ten-point constant series: all three
detectors succeed with empty result lists. -/
theorem results_concatenated_in_order_witness :
    detect_anomalies_in_data AnomalyDetector.init "dev"
        (List.replicate 10 { power_w := some 100, timestamp := some default }) =
      [] ++ [] ++ [] ∧
    (detect_anomalies_in_data AnomalyDetector.init "dev"
        (List.replicate 10 { power_w := some 100, timestamp := some default })).length =
      List.length ([] : List AnomalyResult) + List.length ([] : List AnomalyResult) +
        List.length ([] : List AnomalyResult) :=
  results_concatenated_in_order AnomalyDetector.init "dev"
    (List.replicate 10 { power_w := some 100, timestamp := some default })
    [] [] []
    (by simp)
    (by rw [extract_power_replicate]; simp)
    (const_statistical AnomalyDetector.init "dev" _ _ 100
      (by rw [extract_power_replicate]; exact fun x hx => List.eq_of_mem_replicate hx))
    (by rw [extract_power_replicate]
        simp [detect_trend_anomalies])
    (by rw [extract_power_replicate]
        simp [detect_seasonal_anomalies])

/-- C7: severity assignment in the statistical detector is monotone in the
z-score: whenever `2.0 ≤ z1 < z2`, both z-scores are flagged, and the tier
assigned to `z2` is never lower than the tier assigned to `z1`. -/
theorem severity_monotone_in_z (z1 z2 : ℝ)
    (h1 : AnomalyDetector.init.low ≤ z1) (h12 : z1 < z2) :
    ∃ s1 s2, statSeverity AnomalyDetector.init z1 = some s1 ∧
      statSeverity AnomalyDetector.init z2 = some s2 ∧
      severityRank s1 ≤ severityRank s2 := by
  have hl : AnomalyDetector.init.low = 2 := by norm_num [AnomalyDetector.init]
  rw [hl] at h1
  have hn1 : ¬ z1 < 2 := not_lt.mpr h1
  have hn2 : ¬ z2 < 2 := not_lt.mpr (by linarith)
  refine ⟨if z1 ≥ 4 then "high" else if z1 ≥ 3 then "medium" else "low",
    if z2 ≥ 4 then "high" else if z2 ≥ 3 then "medium" else "low",
    ?_, ?_, ?_⟩
  · rw [statSeverity_init, if_neg hn1]
  · rw [statSeverity_init, if_neg hn2]
  · split_ifs <;> simp [severityRank] <;> linarith

/-- Witness for C7 at the concrete pair `z1 = 2`, `z2 = 5`. -/
theorem severity_monotone_in_z_witness :
    ∃ s1 s2, statSeverity AnomalyDetector.init 2 = some s1 ∧
      statSeverity AnomalyDetector.init 5 = some s2 ∧
      severityRank s1 ≤ severityRank s2 :=
  severity_monotone_in_z 2 5 (by norm_num [AnomalyDetector.init]) (by norm_num)

/-- C8: detection is deterministic and stateless — the run returns its
state unchanged, and a second run from the returned state produces the
identical output list and the identical state; moreover the output depends
on the instance only through its three threshold values — there is no other
state to hide in. In the embedding the method reads `self.anomaly_thresholds`
and assigns nothing, so the first facts hold by computation; no randomness or
hidden cache exists to vary between calls. -/
theorem detection_deterministic (d : AnomalyDetector) (device_id : String)
    (data_points : List DataPoint) :
    (detectRun d device_id data_points).2 = d ∧
    (detectRun (detectRun d device_id data_points).2 device_id data_points).1 =
      (detectRun d device_id data_points).1 ∧
    (detectRun (detectRun d device_id data_points).2 device_id data_points).2 =
      (detectRun d device_id data_points).2 ∧
    ∀ d' : AnomalyDetector, d'.low = d.low → d'.medium = d.medium →
      d'.high = d.high →
      detectRun d' device_id data_points = detectRun d device_id data_points := by
  refine ⟨rfl, rfl, rfl, fun d' h1 h2 h3 => ?_⟩
  obtain ⟨l1, m1, hh1⟩ := d'
  obtain ⟨l2, m2, hh2⟩ := d
  dsimp only at h1 h2 h3
  subst h1
  subst h2
  subst h3
  rfl

/-- C9: after construction the thresholds are exactly 2.0 < 3.0 < 4.0, and
every detection run leaves the instance's state unchanged, for the lifetime
of the instance. -/
theorem thresholds_ordered_and_frozen :
    (AnomalyDetector.init.low = 2 ∧ AnomalyDetector.init.medium = 3 ∧
      AnomalyDetector.init.high = 4) ∧
    (AnomalyDetector.init.low < AnomalyDetector.init.medium ∧
      AnomalyDetector.init.medium < AnomalyDetector.init.high) ∧
    ∀ (device_id : String) (data_points : List DataPoint),
      (detectRun AnomalyDetector.init device_id data_points).2 =
        AnomalyDetector.init := by
  refine ⟨⟨?_, ?_, ?_⟩, ⟨?_, ?_⟩, fun _ _ => rfl⟩ <;>
    norm_num [AnomalyDetector.init]

/-- The function `npStd` is a square root, hence nonnegative. -/
theorem npStd_nonneg (l : List ℝ) : 0 ≤ npStd l := Real.sqrt_nonneg _

/-- Reading `getD` with default 0 off a list of nonnegative reals is nonnegative. -/
theorem getD_nonneg (s : List ℝ) (h : ∀ x ∈ s, 0 ≤ x) (i : ℕ) :
    0 ≤ s.getD i 0 := by
  by_cases hi : i < s.length
  · rw [List.getD_eq_getElem s 0 hi]
    exact h _ (s.getElem_mem hi)
  · rw [List.getD_eq_default s 0 (le_of_not_lt hi)]

/-- The median of a list of nonnegative reals is nonnegative. -/
theorem npMedian_nonneg (l : List ℝ) (h : ∀ x ∈ l, 0 ≤ x) :
    0 ≤ npMedian l := by
  have hs : ∀ x ∈ l.insertionSort (fun a b => a ≤ b), 0 ≤ x := by
    intro x hx
    exact h x ((List.perm_insertionSort _ l).subset hx)
  rw [npMedian]
  split_ifs
  · exact getD_nonneg _ hs _
  · have h1 := getD_nonneg _ hs (l.length / 2 - 1)
    have h2 := getD_nonneg _ hs (l.length / 2)
    linarith

/-- The median absolute deviation is nonnegative. -/
theorem madOf_nonneg (l : List ℝ) : 0 ≤ madOf l := by
  apply npMedian_nonneg
  intro x hx
  obtain ⟨y, _, rfl⟩ := List.mem_map.mp hx
  exact abs_nonneg _

/-- Embeds nothing new: `calculate_anomaly_score` as one decision tree (definitional). -/
theorem calculate_anomaly_score_eq (current_power : ℝ)
    (historical_power : List ℝ) (method : String) :
    calculate_anomaly_score current_power historical_power method =
      if historical_power.length < 5 then 0
      else if npStd historical_power = 0 then 0
      else if method = "zscore" then
        |current_power - npMean historical_power| / npStd historical_power
      else if method = "modified_zscore" then
        if madOf historical_power = 0 then 0
        else 0.6745 * |current_power - npMedian historical_power| /
          madOf historical_power
      else 0 := rfl

/-- C10: `calculate_anomaly_score` never returns a negative value; it
returns exactly 0 for a history shorter than 5 points (in particular an
empty one), for a zero standard deviation, for `modified_zscore` with a zero
median absolute deviation, and for any unknown method; otherwise it returns
`|current - mean| / std` for `zscore` and
`0.6745 * |current - median| / MAD` for `modified_zscore`. -/
theorem calculate_anomaly_score_spec (current_power : ℝ)
    (historical_power : List ℝ) (method : String) :
    0 ≤ calculate_anomaly_score current_power historical_power method ∧
    (historical_power.length < 5 →
      calculate_anomaly_score current_power historical_power method = 0) ∧
    (npStd historical_power = 0 →
      calculate_anomaly_score current_power historical_power method = 0) ∧
    (method = "modified_zscore" → madOf historical_power = 0 →
      calculate_anomaly_score current_power historical_power method = 0) ∧
    (method ≠ "zscore" → method ≠ "modified_zscore" →
      calculate_anomaly_score current_power historical_power method = 0) ∧
    (5 ≤ historical_power.length → npStd historical_power ≠ 0 →
      method = "zscore" →
      calculate_anomaly_score current_power historical_power method =
        |current_power - npMean historical_power| / npStd historical_power) ∧
    (5 ≤ historical_power.length → npStd historical_power ≠ 0 →
      method = "modified_zscore" → madOf historical_power ≠ 0 →
      calculate_anomaly_score current_power historical_power method =
        0.6745 * |current_power - npMedian historical_power| /
          madOf historical_power) := by
  rw [calculate_anomaly_score_eq]
  refine ⟨?_, ?_, ?_, ?_, ?_, ?_, ?_⟩
  · split_ifs
    · exact le_refl 0
    · exact le_refl 0
    · exact div_nonneg (abs_nonneg _) (npStd_nonneg _)
    · exact le_refl 0
    · exact div_nonneg (mul_nonneg (by norm_num) (abs_nonneg _)) (madOf_nonneg _)
    · exact le_refl 0
  · intro h
    rw [if_pos h]
  · intro h
    split_ifs <;> rfl
  · intro hm hmad
    rw [hm]
    split_ifs <;> first | rfl | simp_all
  · intro h1 h2
    split_ifs <;> first | rfl | simp_all
  · intro hlen hstd hm
    rw [hm, if_neg (not_lt.mpr hlen), if_neg hstd, if_pos rfl]
  · intro hlen hstd hm hmad
    rw [hm, if_neg (not_lt.mpr hlen), if_neg hstd,
      if_neg (by simp), if_pos rfl, if_neg hmad]

end Powerlytics
